import Mathlib

/-!
# Verification of the APEX sovereign-risk scoring engine

Shallow embedding of `src/APEX/scoring/apex_score.py` and
`src/APEX/data/countries.py`.  Python floats are modelled as real numbers;
`round(x, n)` is modelled as rounding to `n` decimal places (half-up; no
value appearing in the concrete computations below sits on a tie, so the
half-up/half-even difference is immaterial).  The global watchlist, a
module-level constant in the source, is passed explicitly as the
`watchlist` parameter of every operation, mirroring the spec's description
of the entity table as the engine's input.
-/

noncomputable section

namespace APEX

/-- `Country` from `data/countries.py`: one row of the watchlist. -/
structure Country where
  code : String
  name : String
  category : String
  debt_to_gdp : ℝ
  fx_reserves_months : ℝ
  inflation_rate : ℝ
  yield_10y : ℝ
  yield_spread : ℝ

/-- The static 25-row global watchlist returned by `get_global_watchlist`. -/
def get_global_watchlist : List Country :=
  [ ⟨"USA", "United States", "G7", 122.0, 3.2, 3.1, 4.25, 0⟩,
    ⟨"JPN", "Japan", "G7", 263.0, 18.5, 2.8, 1.05, -320⟩,
    ⟨"DEU", "Germany", "G7", 66.0, 2.8, 2.4, 2.35, -190⟩,
    ⟨"GBR", "United Kingdom", "G7", 101.0, 3.1, 4.0, 4.15, -10⟩,
    ⟨"FRA", "France", "G7", 112.0, 2.5, 2.6, 3.05, -120⟩,
    ⟨"ITA", "Italy", "G7", 140.0, 2.9, 1.8, 3.85, -40⟩,
    ⟨"CAN", "Canada", "G7", 107.0, 2.4, 2.9, 3.25, -100⟩,
    ⟨"BRA", "Brazil", "BRICS", 88.0, 14.2, 4.5, 12.80, 855⟩,
    ⟨"RUS", "Russia", "BRICS", 20.0, 24.0, 8.5, 16.50, 1225⟩,
    ⟨"IND", "India", "BRICS", 83.0, 10.8, 5.2, 7.15, 290⟩,
    ⟨"CHN", "China", "BRICS", 77.0, 16.5, 0.3, 2.65, -160⟩,
    ⟨"ZAF", "South Africa", "BRICS", 73.0, 5.8, 5.8, 10.25, 600⟩,
    ⟨"LBN", "Lebanon", "FRONTIER", 180.0, 0.8, 210.0, 45.00, 4075⟩,
    ⟨"ARG", "Argentina", "FRONTIER", 89.0, 2.1, 140.0, 38.50, 3425⟩,
    ⟨"EGY", "Egypt", "FRONTIER", 92.0, 4.5, 28.5, 27.80, 2355⟩,
    ⟨"TUR", "Turkey", "FRONTIER", 35.0, 4.2, 48.5, 28.50, 2425⟩,
    ⟨"PAK", "Pakistan", "FRONTIER", 78.0, 2.8, 24.5, 18.75, 1450⟩,
    ⟨"NGA", "Nigeria", "FRONTIER", 38.0, 5.1, 28.8, 18.50, 1425⟩,
    ⟨"GHA", "Ghana", "FRONTIER", 88.0, 2.2, 22.5, 28.00, 2375⟩,
    ⟨"LKA", "Sri Lanka", "FRONTIER", 115.0, 3.5, 8.5, 24.50, 2025⟩,
    ⟨"UKR", "Ukraine", "FRONTIER", 85.0, 4.8, 12.5, 19.50, 1525⟩,
    ⟨"VEN", "Venezuela", "FRONTIER", 350.0, 0.5, 185.0, 55.00, 5075⟩,
    ⟨"KEN", "Kenya", "FRONTIER", 68.0, 4.1, 6.8, 16.25, 1200⟩,
    ⟨"TUN", "Tunisia", "FRONTIER", 82.0, 3.2, 9.2, 14.50, 1025⟩,
    ⟨"SLV", "El Salvador", "FRONTIER", 85.0, 2.8, 1.5, 12.80, 855⟩ ]

/-- `get_country_by_code`: lookup by ISO code.  The Python version raises
`ValueError` when the code is absent; we return `none` in that case. -/
def get_country_by_code (watchlist : List Country) (code : String) :
    Option Country :=
  watchlist.find? (fun c => c.code == code)

/-- `np.mean` of a list of floats (empty list never occurs in the claims). -/
def npMean (l : List ℝ) : ℝ := l.sum / l.length

/-- `np.std` of a list of floats: population standard deviation. -/
def npStd (l : List ℝ) : ℝ :=
  Real.sqrt ((l.map (fun x => (x - npMean l) ^ 2)).sum / l.length)

/-- `np.clip(v, lo, hi)`. -/
def npClip (v lo hi : ℝ) : ℝ := min (max v lo) hi

/-- Python `round(x, 2)` (half-up model). -/
def round2 (x : ℝ) : ℝ := (round (100 * x) : ℤ) / 100

/-- Python `round(x, 1)` (half-up model). -/
def round1 (x : ℝ) : ℝ := (round (10 * x) : ℤ) / 10

/-- The `WEIGHTS` configuration dict. -/
structure Weights where
  solvency : ℝ
  liquidity : ℝ
  pressure : ℝ

def WEIGHTS : Weights := ⟨0.35, 0.30, 0.35⟩

/-- The `BOUNDS` configuration dict (lower, upper per metric). -/
structure Bounds where
  debt_to_gdp : ℝ × ℝ
  fx_reserves : ℝ × ℝ
  inflation : ℝ × ℝ
  yield_spread : ℝ × ℝ

def BOUNDS : Bounds := ⟨(0, 350), (0, 24), (0, 220), (-500, 5500)⟩

/-- Per-series entry of the statistics dict: `{'mean': _, 'std': _}`. -/
structure SeriesStat where
  mean : ℝ
  std : ℝ

/-- The dict returned by `calculate_global_statistics`. -/
structure GlobalStats where
  debt_to_gdp : SeriesStat
  fx_reserves : SeriesStat
  inflation : SeriesStat
  pressure : SeriesStat

/-- `calculate_global_statistics`: mean and std of each metric series over
the watchlist, std floored at 1. -/
def calculate_global_statistics (watchlist : List Country) : GlobalStats :=
  let debt_values := watchlist.map (fun c => c.debt_to_gdp)
  let fx_values := watchlist.map (fun c => c.fx_reserves_months)
  let inflation_values := watchlist.map (fun c => c.inflation_rate)
  let pressure_values :=
    watchlist.map (fun c => c.inflation_rate + |c.yield_spread| / 100)
  { debt_to_gdp := ⟨npMean debt_values, max (npStd debt_values) 1⟩
    fx_reserves := ⟨npMean fx_values, max (npStd fx_values) 1⟩
    inflation := ⟨npMean inflation_values, max (npStd inflation_values) 1⟩
    pressure := ⟨npMean pressure_values, max (npStd pressure_values) 1⟩ }

/-- `z_score_normalize`: z-score with sigmoid squashing, clipped to
`[0, 100]`. -/
def z_score_normalize (value mean std : ℝ) (invert : Bool) : ℝ :=
  let z := (value - mean) / std
  let z := if invert then -z else z
  let normalized := 100 / (1 + Real.exp (-z * 0.5))
  npClip normalized 0 100

/-- `get_z_score`: raw z-score for display. -/
def get_z_score (value mean std : ℝ) : ℝ := (value - mean) / std

/-- `get_letter_grade`: APEX score to letter grade. -/
def get_letter_grade (score : ℝ) : String :=
  if score ≥ 90 then "AAA"
  else if score ≥ 80 then "AA"
  else if score ≥ 70 then "A"
  else if score ≥ 60 then "BBB"
  else if score ≥ 50 then "BB"
  else if score ≥ 40 then "B"
  else if score ≥ 30 then "CCC"
  else if score ≥ 20 then "CC"
  else if score ≥ 10 then "C"
  else "D"

/-- `normalize`: min-max normalization to `[0, 100]`. -/
def normalize (value min_val max_val : ℝ) (invert : Bool) : ℝ :=
  let clamped := max min_val (min max_val value)
  let normalized := (clamped - min_val) / (max_val - min_val) * 100
  if invert then 100 - normalized else normalized

/-- `get_risk_tier`: APEX score to risk tier. -/
def get_risk_tier (score : ℝ) : String :=
  if score ≥ 90 then "FORTRESS"
  else if score ≥ 70 then "STABLE"
  else if score ≥ 50 then "ELEVATED"
  else if score ≥ 30 then "HIGH RISK"
  else "CRITICAL"

/-- `APEXResult` dataclass.  `letter_grade` is always passed explicitly by
`calculate_apex_score`, so the `__post_init__` defaulting never fires. -/
structure APEXResult where
  country_code : String
  country_name : String
  apex_score : ℝ
  solvency_score : ℝ
  liquidity_score : ℝ
  pressure_score : ℝ
  risk_tier : String
  letter_grade : String
  z_scores : Option (ℝ × ℝ × ℝ)

/-- The three sub-scores (solvency, liquidity, pressure) computed inside
`calculate_apex_score`, before rounding. -/
def sub_scores (watchlist : List Country) (country : Country)
    (use_zscore : Bool) (override_debt override_inflation : Option ℝ) :
    ℝ × ℝ × ℝ :=
  let debt_value := override_debt.getD country.debt_to_gdp
  let inflation_value := override_inflation.getD country.inflation_rate
  if use_zscore then
    let stats := calculate_global_statistics watchlist
    let solvency := z_score_normalize debt_value stats.debt_to_gdp.mean
      stats.debt_to_gdp.std true
    let liquidity := z_score_normalize country.fx_reserves_months
      stats.fx_reserves.mean stats.fx_reserves.std false
    let pressure_raw := inflation_value + |country.yield_spread| / 100
    let pressure := z_score_normalize pressure_raw stats.pressure.mean
      stats.pressure.std true
    (solvency, liquidity, pressure)
  else
    let solvency := normalize debt_value BOUNDS.debt_to_gdp.1
      BOUNDS.debt_to_gdp.2 true
    let liquidity := normalize country.fx_reserves_months
      BOUNDS.fx_reserves.1 BOUNDS.fx_reserves.2 false
    let pressure_raw := inflation_value + |country.yield_spread| / 100
    let pressure := normalize pressure_raw 0 250 true
    (solvency, liquidity, pressure)

/-- The unrounded composite `apex` local of `calculate_apex_score`. -/
def apex_raw (watchlist : List Country) (country : Country)
    (use_zscore : Bool) (override_debt override_inflation : Option ℝ) : ℝ :=
  let s := sub_scores watchlist country use_zscore override_debt
    override_inflation
  WEIGHTS.solvency * s.1 + WEIGHTS.liquidity * s.2.1 +
    WEIGHTS.pressure * s.2.2

/-- The rounded diagnostic z-scores (z-score mode only). -/
def raw_z_scores (watchlist : List Country) (country : Country)
    (override_debt override_inflation : Option ℝ) : ℝ × ℝ × ℝ :=
  let stats := calculate_global_statistics watchlist
  let debt_value := override_debt.getD country.debt_to_gdp
  let inflation_value := override_inflation.getD country.inflation_rate
  let pressure_raw := inflation_value + |country.yield_spread| / 100
  (round2 (get_z_score debt_value stats.debt_to_gdp.mean
      stats.debt_to_gdp.std),
   round2 (get_z_score country.fx_reserves_months stats.fx_reserves.mean
      stats.fx_reserves.std),
   round2 (get_z_score pressure_raw stats.pressure.mean stats.pressure.std))

/-- `calculate_apex_score`: the main scoring operation. -/
def calculate_apex_score (watchlist : List Country) (country : Country)
    (use_zscore : Bool) (override_debt override_inflation : Option ℝ) :
    APEXResult :=
  let s := sub_scores watchlist country use_zscore override_debt
    override_inflation
  let apex := WEIGHTS.solvency * s.1 + WEIGHTS.liquidity * s.2.1 +
    WEIGHTS.pressure * s.2.2
  { country_code := country.code
    country_name := country.name
    apex_score := round2 apex
    solvency_score := round2 s.1
    liquidity_score := round2 s.2.1
    pressure_score := round2 s.2.2
    risk_tier := get_risk_tier apex
    letter_grade := get_letter_grade apex
    z_scores :=
      if use_zscore then
        some (raw_z_scores watchlist country override_debt
          override_inflation)
      else none }

/-- `simulate_apex_score`: override-based what-if scoring by country code. -/
def simulate_apex_score (watchlist : List Country) (country_code : String)
    (debt_to_gdp inflation_rate : Option ℝ) : Option APEXResult :=
  (get_country_by_code watchlist country_code).map fun country =>
    calculate_apex_score watchlist country true debt_to_gdp inflation_rate

/-- `calculate_all_scores`: score the whole watchlist. -/
def calculate_all_scores (watchlist : List Country) : List APEXResult :=
  watchlist.map (fun c => calculate_apex_score watchlist c true none none)

/-- `get_ranked_countries`: descending by APEX score (Python's stable
`sorted` with `reverse=True`, modelled by stable insertion sort on `≥`). -/
def get_ranked_countries (watchlist : List Country) : List APEXResult :=
  List.insertionSort (fun x y => y.apex_score ≤ x.apex_score)
    (calculate_all_scores watchlist)

/-- `get_stress_ranked_countries`: ascending by APEX score (Python's stable
`sorted`, modelled by stable insertion sort on `≤`). -/
def get_stress_ranked_countries (watchlist : List Country) :
    List APEXResult :=
  List.insertionSort (fun x y => x.apex_score ≤ y.apex_score)
    (calculate_all_scores watchlist)

/-- The dict returned by `get_global_averages`.  Python dict keys map to
fields as follows: `'APEX SCORE' ↦ APEX_SCORE`, `'Yield Health' ↦
Yield_Health`; all other keys are field names verbatim (note that
`inflation` and `Inflation` are distinct keys in the source too). -/
structure GlobalAverages where
  apex_score : ℝ
  solvency : ℝ
  liquidity : ℝ
  pressure : ℝ
  debt_to_gdp : ℝ
  fx_reserves : ℝ
  inflation : ℝ
  yield_10y : ℝ
  Solvency : ℝ
  Liquidity : ℝ
  Stability : ℝ
  Yield_Health : ℝ
  Inflation : ℝ
  APEX_SCORE : ℝ

/-- `get_global_averages`: global average values for all key metrics. -/
def get_global_averages (watchlist : List Country) : GlobalAverages :=
  let scores := calculate_all_scores watchlist
  { apex_score := round2 (npMean (scores.map (fun s => s.apex_score)))
    solvency := round2 (npMean (scores.map (fun s => s.solvency_score)))
    liquidity := round2 (npMean (scores.map (fun s => s.liquidity_score)))
    pressure := round2 (npMean (scores.map (fun s => s.pressure_score)))
    debt_to_gdp := round2 (npMean (watchlist.map (fun c => c.debt_to_gdp)))
    fx_reserves :=
      round2 (npMean (watchlist.map (fun c => c.fx_reserves_months)))
    inflation := round2 (npMean (watchlist.map (fun c => c.inflation_rate)))
    yield_10y := round2 (npMean (watchlist.map (fun c => c.yield_10y)))
    Solvency := round2 (npMean (scores.map (fun s => s.solvency_score)))
    Liquidity := round2 (npMean (scores.map (fun s => s.liquidity_score)))
    Stability := round2 (npMean (scores.map (fun s => s.pressure_score)))
    Yield_Health := round2 (npMean (watchlist.map
      (fun c => max 0 (100 - |c.yield_spread| / 50))))
    Inflation :=
      round2 (100 - npMean (watchlist.map (fun c => c.inflation_rate)) / 2.5)
    APEX_SCORE := round2 (npMean (scores.map (fun s => s.apex_score))) }

/-- The `primary_risk, max_deviation` loop of `generate_insight`: scan the
risk factors `(name, score, average)` in dict order, keeping the first
factor whose deviation `average - score` strictly exceeds the running
maximum (initially `None, 0`). -/
def pickPrimary (factors : List (String × ℝ × ℝ)) : Option String × ℝ :=
  factors.foldl
    (fun acc f =>
      let deviation := f.2.2 - f.2.1
      if acc.2 < deviation then (some f.1, deviation) else acc)
    (none, 0)

/-- `min(risk_factors.items(), key=lambda x: x[1][0])`: first factor with
the lowest score (Python's `min` keeps the earliest minimum). -/
def pickWeakest : List (String × ℝ × ℝ) → String × ℝ × ℝ
  | [] => ("", 0, 0)
  | f :: fs => fs.foldl (fun best g => if g.2.1 < best.2.1 then g else best) f

/-- The `grade_desc` lookup dict of `generate_insight`, with the `.get(_,
'undefined')` default. -/
def grade_desc (g : String) : String :=
  if g = "AAA" then "top-tier investment grade"
  else if g = "AA" then "high investment grade"
  else if g = "A" then "upper-medium investment grade"
  else if g = "BBB" then "medium investment grade"
  else if g = "BB" then "speculative grade"
  else if g = "B" then "highly speculative"
  else if g = "CCC" then "substantial risk"
  else if g = "CC" then "extremely speculative"
  else if g = "C" then "near-default"
  else if g = "D" then "default imminent"
  else "undefined"

/-- The insight record returned by `generate_insight`.  The `summary`
f-string is pure text interpolation of the other fields (country name,
grade, tone phrase, primary risk, rounded deviation) and is not modelled
separately; its selected tone phrase is the `tone` field. -/
structure Insight where
  tone : String
  primary_risk : String
  deviation : ℝ
  grade : String
  grade_description : String
  recommendation : String
  apex_score : ℝ
  risk_tier : String

/-- Body of `generate_insight` once the country has been resolved. -/
def generate_insight_core (watchlist : List Country) (country : Country) :
    Insight :=
  let result := calculate_apex_score watchlist country true none none
  let averages := get_global_averages watchlist
  let risk_factors : List (String × ℝ × ℝ) :=
    [("Solvency (Debt/GDP)", result.solvency_score, averages.solvency),
     ("Liquidity (FX Reserves)", result.liquidity_score, averages.liquidity),
     ("Market Pressure", result.pressure_score, averages.pressure)]
  let pm := pickPrimary risk_factors
  let primary_risk :=
    if pm.1 = none ∨ pm.2 < 5 then (pickWeakest risk_factors).1
    else pm.1.getD ""
  let tone :=
    if result.apex_score ≥ 70 then "demonstrates robust fundamentals"
    else if result.apex_score ≥ 50 then "exhibits moderate vulnerability"
    else if result.apex_score ≥ 30 then "shows significant stress indicators"
    else "faces severe sovereign distress"
  let recommendation :=
    if result.apex_score ≥ 70 then
      "LOW RISK: Suitable for sovereign bond allocation."
    else if result.apex_score ≥ 50 then
      "MODERATE RISK: Monitor key indicators closely."
    else if result.apex_score ≥ 30 then
      "HIGH RISK: Consider hedging or reduced exposure."
    else "CRITICAL: Avoid new exposure. Evaluate exit strategy."
  { tone := tone
    primary_risk := primary_risk
    deviation := round1 |pm.2|
    grade := result.letter_grade
    grade_description := grade_desc result.letter_grade
    recommendation := recommendation
    apex_score := result.apex_score
    risk_tier := result.risk_tier }

/-- `generate_insight`: AI-style analytical insight for a country code. -/
def generate_insight (watchlist : List Country) (country_code : String) :
    Option Insight :=
  (get_country_by_code watchlist country_code).map
    (generate_insight_core watchlist)

/-! ## Concrete test inputs and claim-side definitions -/

/-- Mapping from letter grade to risk tier asserted by claim C10. -/
def tier_of_grade (g : String) : String :=
  if g = "AAA" then "FORTRESS"
  else if g = "AA" ∨ g = "A" then "STABLE"
  else if g = "BBB" ∨ g = "BB" then "ELEVATED"
  else if g = "B" ∨ g = "CCC" then "HIGH RISK"
  else "CRITICAL"

/-- Overrides act as a pure substitution on the entity record (claim C4). -/
def apply_overrides (c : Country) (od oi : Option ℝ) : Country :=
  { c with debt_to_gdp := od.getD c.debt_to_gdp,
           inflation_rate := oi.getD c.inflation_rate }

/-- Entity whose fixed-bounds sub-scores are `(99.971..., 0.8333...,
99.16)`: rounding the sub-scores before the weighted sum moves the rounded
composite from 69.95 down to 69.94. -/
def roundingGapCountry : Country := ⟨"RND", "Roundland", "TEST", 0.1, 0.2, 2.1, 0, 0⟩

/-- Entity with unrounded fixed-bounds composite exactly 90. -/
def boundary90Country : Country := ⟨"NTY", "Ninety", "TEST", 0, 24, 500 / 7, 0, 0⟩

/-- Entity with unrounded fixed-bounds composite exactly 89.99. -/
def boundary8999Country : Country := ⟨"NTX", "EightyNine", "TEST", 0, 24, 71.5, 0, 0⟩

/-- Entity with unrounded fixed-bounds composite 89.997: the stored
`apex_score` rounds to 90.00 while grade/tier are taken from the
pre-rounding composite. -/
def nearNinetyCountry : Country := ⟨"NNN", "NearNinety", "TEST", 0, 24, 71.45, 0, 0⟩

/-- Two entities with identical metrics but different identities: a
composite-score tie. -/
def tieCountryA : Country := ⟨"TIA", "Tie Alpha", "TEST", 50, 5, 10, 5, 0⟩

def tieCountryB : Country := ⟨"TIB", "Tie Beta", "TEST", 50, 5, 10, 5, 0⟩

def tieWatchlist : List Country := [tieCountryA, tieCountryB]

/-- Three-entity population for claim C9.  Every metric series has
population standard deviation below 1, so each std is floored to 1 and the
z-scores are exact differences from the mean.  The target entity `TGT` gets
solvency sub-score 45.00 (deviation from the population solvency average
50.00 is exactly 5.00), liquidity 50.00 (deviation 0) and pressure 44.99
(its lowest sub-score, deviation 4.98). -/
def insightTarget : Country := ⟨"TGT", "Targetia", "TEST", 100.4013, 5, 10.4022, 4.25, 0⟩

def insightFoil : Country := ⟨"FOI", "Foilia", "TEST", 99.5987, 5, 10.4022, 4.25, 0⟩

def insightMid : Country := ⟨"MID", "Midia", "TEST", 100, 5, 9.1956, 4.25, 0⟩

def insightWatchlist : List Country := [insightTarget, insightFoil, insightMid]

/-- Singleton population with zero inflation, separating the `'inflation'`
and `'Inflation'` aggregates. -/
def zeroInflationCountry : Country := ⟨"ZIN", "Zeroland", "TEST", 50, 5, 0, 5, 0⟩

/-! ## Helper lemmas -/

lemma round_mono {x y : ℝ} (h : x ≤ y) : round x ≤ round y := by
  rw [round_eq, round_eq]
  exact Int.floor_le_floor (by linarith)

lemma round2_mono {x y : ℝ} (h : x ≤ y) : round2 x ≤ round2 y := by
  unfold round2
  have hr : round (100 * x) ≤ round (100 * y) := round_mono (by linarith)
  have : ((round (100 * x) : ℤ) : ℝ) ≤ ((round (100 * y) : ℤ) : ℝ) :=
    Int.cast_le.mpr hr
  linarith

lemma round2_zero : round2 0 = 0 := by
  unfold round2
  norm_num

lemma round2_hundred : round2 100 = 100 := by
  unfold round2
  rw [show ((100 : ℝ) * 100) = ((10000 : ℤ) : ℝ) by norm_num, round_intCast]
  norm_num

lemma round2_mem {x : ℝ} (h0 : 0 ≤ x) (h1 : x ≤ 100) :
    0 ≤ round2 x ∧ round2 x ≤ 100 := by
  constructor
  · have := round2_mono h0
    rwa [round2_zero] at this
  · have := round2_mono h1
    rwa [round2_hundred] at this

/-- Evaluate `round` from rational bounds. -/
lemma round_eq_of_bounds {x : ℝ} {k : ℤ} (h1 : (k : ℝ) ≤ x + 1 / 2)
    (h2 : x + 1 / 2 < k + 1) : round x = k := by
  rw [round_eq]
  exact Int.floor_eq_iff.mpr ⟨h1, by exact_mod_cast h2⟩

/-- Evaluate `round2` from rational bounds on `100 * x`. -/
lemma round2_eq_of_bounds {x : ℝ} {k : ℤ} (h1 : (k : ℝ) ≤ 100 * x + 1 / 2)
    (h2 : 100 * x + 1 / 2 < k + 1) : round2 x = (k : ℝ) / 100 := by
  unfold round2
  rw [round_eq_of_bounds h1 h2]

lemma npClip_mem {v lo hi : ℝ} (h : lo ≤ hi) :
    lo ≤ npClip v lo hi ∧ npClip v lo hi ≤ hi :=
  ⟨le_min (le_max_right _ _) h, min_le_right _ _⟩

lemma z_score_normalize_mem (value mean std : ℝ) (invert : Bool) :
    0 ≤ z_score_normalize value mean std invert ∧
      z_score_normalize value mean std invert ≤ 100 := by
  unfold z_score_normalize
  exact npClip_mem (by norm_num)

lemma normalize_mem {v lo hi : ℝ} (h : lo < hi) (invert : Bool) :
    0 ≤ normalize v lo hi invert ∧ normalize v lo hi invert ≤ 100 := by
  unfold normalize
  have hcl : lo ≤ max lo (min hi v) := le_max_left _ _
  have hch : max lo (min hi v) ≤ hi := max_le h.le (min_le_left _ _)
  have hpos : (0 : ℝ) < hi - lo := by linarith
  have h1 : 0 ≤ (max lo (min hi v) - lo) / (hi - lo) :=
    div_nonneg (by linarith) hpos.le
  have h2 : (max lo (min hi v) - lo) / (hi - lo) ≤ 1 :=
    (div_le_one hpos).mpr (by linarith)
  cases invert <;> simp only [if_true, if_false, Bool.false_eq_true] <;>
    constructor <;> nlinarith

lemma sub_scores_mem (watchlist : List Country) (country : Country)
    (use_zscore : Bool) (od oi : Option ℝ) :
    (0 ≤ (sub_scores watchlist country use_zscore od oi).1 ∧
      (sub_scores watchlist country use_zscore od oi).1 ≤ 100) ∧
    (0 ≤ (sub_scores watchlist country use_zscore od oi).2.1 ∧
      (sub_scores watchlist country use_zscore od oi).2.1 ≤ 100) ∧
    (0 ≤ (sub_scores watchlist country use_zscore od oi).2.2 ∧
      (sub_scores watchlist country use_zscore od oi).2.2 ≤ 100) := by
  unfold sub_scores
  cases use_zscore
  · simp only [Bool.false_eq_true, if_false, BOUNDS]
    exact ⟨normalize_mem (by norm_num) _, normalize_mem (by norm_num) _,
      normalize_mem (by norm_num) _⟩
  · simp only [if_true]
    exact ⟨z_score_normalize_mem _ _ _ _, z_score_normalize_mem _ _ _ _,
      z_score_normalize_mem _ _ _ _⟩

/-! ## Claim C1 -/

/-- C1: for every watchlist, entity, normalization mode and override
combination, the three stored sub-scores and the stored composite
`apex_score` of the `APEXResult` returned by `calculate_apex_score` all lie
in `[0, 100]`. -/
theorem calculate_apex_score_fields_in_range (watchlist : List Country)
    (country : Country) (use_zscore : Bool) (od oi : Option ℝ) :
    (0 ≤ (calculate_apex_score watchlist country use_zscore od oi).solvency_score ∧
      (calculate_apex_score watchlist country use_zscore od oi).solvency_score ≤ 100) ∧
    (0 ≤ (calculate_apex_score watchlist country use_zscore od oi).liquidity_score ∧
      (calculate_apex_score watchlist country use_zscore od oi).liquidity_score ≤ 100) ∧
    (0 ≤ (calculate_apex_score watchlist country use_zscore od oi).pressure_score ∧
      (calculate_apex_score watchlist country use_zscore od oi).pressure_score ≤ 100) ∧
    (0 ≤ (calculate_apex_score watchlist country use_zscore od oi).apex_score ∧
      (calculate_apex_score watchlist country use_zscore od oi).apex_score ≤ 100) := by
  obtain ⟨⟨h1, h2⟩, ⟨h3, h4⟩, h5, h6⟩ :=
    sub_scores_mem watchlist country use_zscore od oi
  simp only [calculate_apex_score]
  refine ⟨round2_mem h1 h2, round2_mem h3 h4, round2_mem h5 h6, ?_⟩
  apply round2_mem
  · simp only [WEIGHTS]
    nlinarith
  · simp only [WEIGHTS]
    nlinarith

lemma normalize_inside_false {v lo hi : ℝ} (h1 : lo ≤ v) (h2 : v ≤ hi) :
    normalize v lo hi false = (v - lo) / (hi - lo) * 100 := by
  unfold normalize
  rw [min_eq_right h2, max_eq_right h1]
  simp

lemma normalize_inside_true {v lo hi : ℝ} (h1 : lo ≤ v) (h2 : v ≤ hi) :
    normalize v lo hi true = 100 - (v - lo) / (hi - lo) * 100 := by
  unfold normalize
  rw [min_eq_right h2, max_eq_right h1]
  simp

/-- Evaluation of the fixed-bounds sub-scores when all raw inputs are
inside the static bounds. -/
lemma sub_scores_fixed_eval (watchlist : List Country) (c : Country)
    (od oi : Option ℝ)
    (hd1 : 0 ≤ od.getD c.debt_to_gdp) (hd2 : od.getD c.debt_to_gdp ≤ 350)
    (hf1 : 0 ≤ c.fx_reserves_months) (hf2 : c.fx_reserves_months ≤ 24)
    (hp1 : 0 ≤ oi.getD c.inflation_rate + |c.yield_spread| / 100)
    (hp2 : oi.getD c.inflation_rate + |c.yield_spread| / 100 ≤ 250) :
    sub_scores watchlist c false od oi =
      (100 - od.getD c.debt_to_gdp / 350 * 100,
       c.fx_reserves_months / 24 * 100,
       100 - (oi.getD c.inflation_rate + |c.yield_spread| / 100) / 250 * 100) := by
  unfold sub_scores
  simp only [Bool.false_eq_true, if_false, BOUNDS]
  rw [normalize_inside_true hd1 hd2, normalize_inside_false hf1 hf2,
    normalize_inside_true hp1 hp2]
  norm_num

/-! ## Claim C2 -/

/-- C2 (amended): the stored composite equals
`round2 (0.35·solvency + 0.30·liquidity + 0.35·pressure)` applied to the
UNROUNDED sub-scores (the source computes `apex` from the pre-rounding
locals, not from the rounded fields it stores). -/
theorem apex_score_is_round2_of_unrounded_subscores
    (watchlist : List Country) (country : Country) (use_zscore : Bool)
    (od oi : Option ℝ) :
    (calculate_apex_score watchlist country use_zscore od oi).apex_score =
      round2 (0.35 * (sub_scores watchlist country use_zscore od oi).1 +
        0.30 * (sub_scores watchlist country use_zscore od oi).2.1 +
        0.35 * (sub_scores watchlist country use_zscore od oi).2.2) := by
  simp only [calculate_apex_score, WEIGHTS]

/-- C2 (counterexample): for the entity `roundingGapCountry` in fixed-bounds
mode, the stored `apex_score` is 69.95, while the round of the weighted sum
of the stored (rounded) sub-score fields is 69.94. -/
theorem apex_score_rounded_subscores_counterexample :
    (calculate_apex_score [] roundingGapCountry false none none).apex_score ≠
      round2 (0.35 *
          (calculate_apex_score [] roundingGapCountry false none none).solvency_score +
        0.30 *
          (calculate_apex_score [] roundingGapCountry false none none).liquidity_score +
        0.35 *
          (calculate_apex_score [] roundingGapCountry false none none).pressure_score) := by
  have hs : sub_scores [] roundingGapCountry false none none =
      (3499 / 35, 5 / 6, 2479 / 25) := by
    rw [sub_scores_fixed_eval [] roundingGapCountry none none
      (by norm_num [roundingGapCountry]) (by norm_num [roundingGapCountry])
      (by norm_num [roundingGapCountry]) (by norm_num [roundingGapCountry])
      (by norm_num [roundingGapCountry]) (by norm_num [roundingGapCountry])]
    norm_num [roundingGapCountry]
  simp only [calculate_apex_score, hs, WEIGHTS]
  rw [show (0.35 : ℝ) * (3499 / 35) + 0.30 * (5 / 6) + 0.35 * (2479 / 25) =
    34973 / 500 by norm_num]
  rw [round2_eq_of_bounds (k := 6995) (by norm_num) (by norm_num)]
  rw [round2_eq_of_bounds (x := (3499 : ℝ) / 35) (k := 9997) (by norm_num)
    (by norm_num)]
  rw [round2_eq_of_bounds (x := (5 : ℝ) / 6) (k := 83) (by norm_num)
    (by norm_num)]
  rw [round2_eq_of_bounds (x := (2479 : ℝ) / 25) (k := 9916) (by norm_num)
    (by norm_num)]
  rw [show (0.35 : ℝ) * ((9997 : ℤ) / 100) + 0.30 * ((83 : ℤ) / 100) +
    0.35 * ((9916 : ℤ) / 100) = 139889 / 2000 by push_cast; norm_num]
  rw [round2_eq_of_bounds (k := 6994) (by norm_num) (by norm_num)]
  norm_num

/-! ## Claim C3 -/

/-- C3 (amended): grade and tier are assigned from the PRE-rounding
composite: if the unrounded composite is exactly 90 the result carries
grade AAA and tier FORTRESS, and if it is exactly 89.99 the result carries
grade AA and tier STABLE.  (The claim as stated over the rounded
`apex_score` field fails, see the counterexample.) -/
theorem grade_tier_boundary (watchlist : List Country) (country : Country)
    (use_zscore : Bool) (od oi : Option ℝ) :
    (apex_raw watchlist country use_zscore od oi = 90 →
      (calculate_apex_score watchlist country use_zscore od oi).letter_grade = "AAA" ∧
      (calculate_apex_score watchlist country use_zscore od oi).risk_tier = "FORTRESS") ∧
    (apex_raw watchlist country use_zscore od oi = 89.99 →
      (calculate_apex_score watchlist country use_zscore od oi).letter_grade = "AA" ∧
      (calculate_apex_score watchlist country use_zscore od oi).risk_tier = "STABLE") := by
  simp only [apex_raw, calculate_apex_score]
  constructor
  · intro h
    rw [h]
    constructor
    · unfold get_letter_grade
      rw [if_pos (by norm_num : (90 : ℝ) ≥ 90)]
    · unfold get_risk_tier
      rw [if_pos (by norm_num : (90 : ℝ) ≥ 90)]
  · intro h
    rw [h]
    constructor
    · unfold get_letter_grade
      rw [if_neg (by norm_num : ¬((89.99 : ℝ) ≥ 90)),
        if_pos (by norm_num : (89.99 : ℝ) ≥ 80)]
    · unfold get_risk_tier
      rw [if_neg (by norm_num : ¬((89.99 : ℝ) ≥ 90)),
        if_pos (by norm_num : (89.99 : ℝ) ≥ 70)]

/-- C3 (witness): two fixed-bounds entities whose unrounded composites are
exactly 90 and 89.99 get grades AAA/FORTRESS and AA/STABLE respectively. -/
theorem grade_tier_boundary_witness :
    (calculate_apex_score [] boundary90Country false none none).letter_grade = "AAA" ∧
    (calculate_apex_score [] boundary90Country false none none).risk_tier = "FORTRESS" ∧
    (calculate_apex_score [] boundary8999Country false none none).letter_grade = "AA" ∧
    (calculate_apex_score [] boundary8999Country false none none).risk_tier = "STABLE" := by
  have h90 : apex_raw [] boundary90Country false none none = 90 := by
    unfold apex_raw
    rw [sub_scores_fixed_eval [] boundary90Country none none
      (by norm_num [boundary90Country]) (by norm_num [boundary90Country])
      (by norm_num [boundary90Country]) (by norm_num [boundary90Country])
      (by norm_num [boundary90Country]) (by norm_num [boundary90Country])]
    norm_num [boundary90Country, WEIGHTS]
  have h89 : apex_raw [] boundary8999Country false none none = 89.99 := by
    unfold apex_raw
    rw [sub_scores_fixed_eval [] boundary8999Country none none
      (by norm_num [boundary8999Country]) (by norm_num [boundary8999Country])
      (by norm_num [boundary8999Country]) (by norm_num [boundary8999Country])
      (by norm_num [boundary8999Country]) (by norm_num [boundary8999Country])]
    norm_num [boundary8999Country, WEIGHTS]
  obtain ⟨a, b⟩ := (grade_tier_boundary [] boundary90Country false none none).1 h90
  obtain ⟨d, e⟩ := (grade_tier_boundary [] boundary8999Country false none none).2 h89
  exact ⟨a, b, d, e⟩

/-- C3 (counterexample): `nearNinetyCountry` has unrounded composite
89.9972, so its stored `apex_score` field is exactly 90.00 while its
`letter_grade` is "AA" (not "AAA") and its `risk_tier` is "STABLE" (not
"FORTRESS"): the claim quantified over the stored field fails. -/
theorem grade_tier_boundary_counterexample :
    (calculate_apex_score [] nearNinetyCountry false none none).apex_score = 90 ∧
    (calculate_apex_score [] nearNinetyCountry false none none).letter_grade = "AA" ∧
    (calculate_apex_score [] nearNinetyCountry false none none).risk_tier = "STABLE" := by
  have hs : sub_scores [] nearNinetyCountry false none none =
      (100, 100, 71.42) := by
    rw [sub_scores_fixed_eval [] nearNinetyCountry none none
      (by norm_num [nearNinetyCountry]) (by norm_num [nearNinetyCountry])
      (by norm_num [nearNinetyCountry]) (by norm_num [nearNinetyCountry])
      (by norm_num [nearNinetyCountry]) (by norm_num [nearNinetyCountry])]
    norm_num [nearNinetyCountry]
  simp only [calculate_apex_score, hs, WEIGHTS]
  refine ⟨?_, ?_, ?_⟩
  · rw [show (0.35 : ℝ) * 100 + 0.30 * 100 + 0.35 * 71.42 =
      89.997 by norm_num]
    rw [round2_eq_of_bounds (k := 9000) (by norm_num) (by norm_num)]
    norm_num
  · rw [show (0.35 : ℝ) * 100 + 0.30 * 100 + 0.35 * 71.42 =
      89.997 by norm_num]
    unfold get_letter_grade
    rw [if_neg (by norm_num : ¬((89.997 : ℝ) ≥ 90)),
      if_pos (by norm_num : (89.997 : ℝ) ≥ 80)]
  · rw [show (0.35 : ℝ) * 100 + 0.30 * 100 + 0.35 * 71.42 =
      89.997 by norm_num]
    unfold get_risk_tier
    rw [if_neg (by norm_num : ¬((89.997 : ℝ) ≥ 90)),
      if_pos (by norm_num : (89.997 : ℝ) ≥ 70)]

/-! ## Claim C4 -/

/-- C4: overrides are a pure substitution applied to the entity before
normalization: scoring with overrides equals scoring the substituted entity
against the SAME watchlist with no overrides (so the population statistics,
which are `calculate_global_statistics watchlist` on both sides, and every
other entity's result `calculate_apex_score watchlist other uz none none`,
are untouched by the simulation); moreover each z-score-mode sub-score is
normalized with the mean/std of the unmodified watchlist. -/
theorem override_pure_substitution (watchlist : List Country)
    (country : Country) (use_zscore : Bool) (od oi : Option ℝ) :
    calculate_apex_score watchlist country use_zscore od oi =
      calculate_apex_score watchlist (apply_overrides country od oi)
        use_zscore none none ∧
    (sub_scores watchlist country true od oi).1 =
      z_score_normalize (od.getD country.debt_to_gdp)
        (calculate_global_statistics watchlist).debt_to_gdp.mean
        (calculate_global_statistics watchlist).debt_to_gdp.std true ∧
    (sub_scores watchlist country true od oi).2.1 =
      z_score_normalize country.fx_reserves_months
        (calculate_global_statistics watchlist).fx_reserves.mean
        (calculate_global_statistics watchlist).fx_reserves.std false ∧
    (sub_scores watchlist country true od oi).2.2 =
      z_score_normalize (oi.getD country.inflation_rate +
          |country.yield_spread| / 100)
        (calculate_global_statistics watchlist).pressure.mean
        (calculate_global_statistics watchlist).pressure.std true := by
  refine ⟨?_, rfl, rfl, rfl⟩
  cases od <;> cases oi <;> rfl

/-! ## Claim C5 -/

lemma npMean_const {l : List ℝ} {d : ℝ} (hl : l ≠ []) (h : ∀ x ∈ l, x = d) :
    npMean l = d := by
  unfold npMean
  rw [List.sum_eq_card_nsmul l d h, nsmul_eq_mul]
  have hn : (l.length : ℝ) ≠ 0 :=
    Nat.cast_ne_zero.mpr (fun h0 => hl (List.length_eq_zero.mp h0))
  field_simp

lemma npStd_const {l : List ℝ} {d : ℝ} (hl : l ≠ []) (h : ∀ x ∈ l, x = d) :
    npStd l = 0 := by
  unfold npStd
  rw [npMean_const hl h]
  rw [List.sum_eq_zero (by
    intro y hy
    obtain ⟨x, hx, rfl⟩ := List.mem_map.mp hy
    rw [h x hx]
    ring)]
  simp

/-- C5: for every non-empty entity table, every per-series standard
deviation computed by `calculate_global_statistics` is at least 1; and when
all entities share the same debt-to-GDP value the debt-to-GDP std is
exactly 1 (the raw population std 0 is floored), not 0. -/
theorem global_statistics_std_floor (watchlist : List Country)
    (hw : watchlist ≠ []) :
    (1 ≤ (calculate_global_statistics watchlist).debt_to_gdp.std ∧
     1 ≤ (calculate_global_statistics watchlist).fx_reserves.std ∧
     1 ≤ (calculate_global_statistics watchlist).inflation.std ∧
     1 ≤ (calculate_global_statistics watchlist).pressure.std) ∧
    (∀ d : ℝ, (∀ c ∈ watchlist, c.debt_to_gdp = d) →
      (calculate_global_statistics watchlist).debt_to_gdp.std = 1) := by
  constructor
  · exact ⟨le_max_right _ _, le_max_right _ _, le_max_right _ _,
      le_max_right _ _⟩
  · intro d hd
    simp only [calculate_global_statistics]
    rw [npStd_const (fun h0 => hw (List.map_eq_nil_iff.mp h0)) (by
      intro x hx
      obtain ⟨c, hc, rfl⟩ := List.mem_map.mp hx
      exact hd c hc)]
    exact max_eq_right (by norm_num)

/-- C5 (witness): on the two-entity population `tieWatchlist`, whose
debt-to-GDP values are both 50, every std is ≥ 1 and the debt-to-GDP std is
exactly 1. -/
theorem global_statistics_std_floor_witness :
    (1 ≤ (calculate_global_statistics tieWatchlist).debt_to_gdp.std ∧
     1 ≤ (calculate_global_statistics tieWatchlist).fx_reserves.std ∧
     1 ≤ (calculate_global_statistics tieWatchlist).inflation.std ∧
     1 ≤ (calculate_global_statistics tieWatchlist).pressure.std) ∧
    (calculate_global_statistics tieWatchlist).debt_to_gdp.std = 1 := by
  have h := global_statistics_std_floor tieWatchlist
    (by simp [tieWatchlist])
  refine ⟨h.1, h.2 50 ?_⟩
  intro c hc
  simp only [tieWatchlist, List.mem_cons, List.mem_singleton,
    List.not_mem_nil, or_false] at hc
  rcases hc with rfl | rfl <;> norm_num [tieCountryA, tieCountryB]

/-! ## Claim C6 -/

lemma sigmoid_antitone {x y : ℝ} (h : x ≤ y) :
    100 / (1 + Real.exp (y * 0.5)) ≤ 100 / (1 + Real.exp (x * 0.5)) := by
  have hx : Real.exp (x * 0.5) ≤ Real.exp (y * 0.5) :=
    Real.exp_le_exp.mpr (by linarith)
  have h0 : (0 : ℝ) < 1 + Real.exp (x * 0.5) := by positivity
  gcongr

lemma clamp_mono {lo hi v v' : ℝ} (h : v' ≤ v) :
    max lo (min hi v') ≤ max lo (min hi v) :=
  max_le_max le_rfl (min_le_min le_rfl h)

lemma normalize_true_antitone {lo hi v v' : ℝ} (hlh : lo < hi)
    (h : v' ≤ v) : normalize v lo hi true ≤ normalize v' lo hi true := by
  unfold normalize
  simp only [if_true]
  have hc : max lo (min hi v') ≤ max lo (min hi v) := clamp_mono h
  have hd : (max lo (min hi v') - lo) / (hi - lo) * 100 ≤
      (max lo (min hi v) - lo) / (hi - lo) * 100 := by
    apply mul_le_mul_of_nonneg_right _ (by norm_num)
    exact (div_le_div_iff_of_pos_right (by linarith)).mpr (by linarith)
  linarith

/-- C6: with all other entities held fixed, decreasing one entity's
debt-to-GDP value (supplied through the `override_debt` simulation channel,
the code's mechanism for varying a single entity's debt) does not decrease
that entity's stored solvency sub-score, in both normalization modes. -/
theorem solvency_score_antitone_in_debt (watchlist : List Country)
    (country : Country) (use_zscore : Bool) (oi : Option ℝ) {d d' : ℝ}
    (h : d' ≤ d) :
    (calculate_apex_score watchlist country use_zscore (some d) oi).solvency_score ≤
      (calculate_apex_score watchlist country use_zscore (some d') oi).solvency_score := by
  simp only [calculate_apex_score]
  apply round2_mono
  unfold sub_scores
  cases use_zscore
  · simp only [Bool.false_eq_true, if_false, Option.getD_some, BOUNDS]
    exact normalize_true_antitone (by norm_num) h
  · simp only [if_true, Option.getD_some]
    unfold z_score_normalize npClip
    simp only [if_true, neg_neg]
    have hσ : (0 : ℝ) <
        (calculate_global_statistics watchlist).debt_to_gdp.std := by
      have : (1 : ℝ) ≤
          (calculate_global_statistics watchlist).debt_to_gdp.std :=
        le_max_right _ _
      linarith
    have h1 : (d' - (calculate_global_statistics watchlist).debt_to_gdp.mean) /
          (calculate_global_statistics watchlist).debt_to_gdp.std ≤
        (d - (calculate_global_statistics watchlist).debt_to_gdp.mean) /
          (calculate_global_statistics watchlist).debt_to_gdp.std :=
      (div_le_div_iff_of_pos_right hσ).mpr (by linarith)
    exact min_le_min (max_le_max (sigmoid_antitone h1) le_rfl) le_rfl

/-- C6 (witness): lowering the override debt from 80 to 60 does not lower
the solvency sub-score for a concrete entity and watchlist. -/
theorem solvency_score_antitone_in_debt_witness :
    (calculate_apex_score [tieCountryA] tieCountryA true (some 80) none).solvency_score ≤
      (calculate_apex_score [tieCountryA] tieCountryA true (some 60) none).solvency_score :=
  solvency_score_antitone_in_debt [tieCountryA] tieCountryA true none
    (by norm_num)

/-! ## Claim C7 -/

lemma apex_score_depends_only_on_metrics (watchlist : List Country)
    (c c' : Country) (uz : Bool) (od oi : Option ℝ)
    (h1 : c.debt_to_gdp = c'.debt_to_gdp)
    (h2 : c.fx_reserves_months = c'.fx_reserves_months)
    (h3 : c.inflation_rate = c'.inflation_rate)
    (h4 : c.yield_spread = c'.yield_spread) :
    (calculate_apex_score watchlist c uz od oi).apex_score =
      (calculate_apex_score watchlist c' uz od oi).apex_score := by
  simp only [calculate_apex_score, sub_scores]
  rw [h1, h2, h3, h4]

/-- C7 (amended): when no two entities share a composite score, the
ascending (stress-ranked) list reversed equals the descending (best-first)
list.  (With tied composite scores both stable sorts preserve input order,
so the reversal identity fails; see the counterexample.) -/
theorem stress_rank_reverse_eq_rank (watchlist : List Country)
    (hnodup : (calculate_all_scores watchlist).Pairwise
      (fun a b => a.apex_score ≠ b.apex_score)) :
    (get_stress_ranked_countries watchlist).reverse =
      get_ranked_countries watchlist := by
  classical
  simp only [get_stress_ranked_countries, get_ranked_countries]
  set L := calculate_all_scores watchlist with hL
  haveI hTot_le : IsTotal APEXResult
      (fun x y => x.apex_score ≤ y.apex_score) := ⟨fun a b => le_total _ _⟩
  haveI hTrans_le : IsTrans APEXResult
      (fun x y => x.apex_score ≤ y.apex_score) :=
    ⟨fun _ _ _ hab hbc => le_trans hab hbc⟩
  haveI hTot_ge : IsTotal APEXResult
      (fun x y => y.apex_score ≤ x.apex_score) := ⟨fun a b => le_total _ _⟩
  haveI hTrans_ge : IsTrans APEXResult
      (fun x y => y.apex_score ≤ x.apex_score) :=
    ⟨fun _ _ _ hab hbc => le_trans hbc hab⟩
  haveI hAnti : IsAntisymm APEXResult
      (fun a b => b.apex_score < a.apex_score ∨ a = b) := by
    constructor
    rintro a b (hab | rfl) (hba | hba)
    · exact absurd hba (lt_asymm hab)
    · exact hba.symm
    · rfl
    · rfl
  have hsymm : ∀ {x y : APEXResult},
      x.apex_score ≠ y.apex_score → y.apex_score ≠ x.apex_score :=
    fun h => h.symm
  have hasc : List.Sorted (fun x y => x.apex_score ≤ y.apex_score)
      (List.insertionSort (fun x y => x.apex_score ≤ y.apex_score) L) :=
    List.sorted_insertionSort _ L
  have hdesc : List.Sorted (fun x y => y.apex_score ≤ x.apex_score)
      (List.insertionSort (fun x y => y.apex_score ≤ x.apex_score) L) :=
    List.sorted_insertionSort _ L
  have hnd_asc : (List.insertionSort
      (fun x y => x.apex_score ≤ y.apex_score) L).Pairwise
      (fun a b => a.apex_score ≠ b.apex_score) :=
    ((List.perm_insertionSort _ L).pairwise_iff
      (fun h => hsymm h)).mpr hnodup
  have hnd_desc : (List.insertionSort
      (fun x y => y.apex_score ≤ x.apex_score) L).Pairwise
      (fun a b => a.apex_score ≠ b.apex_score) :=
    ((List.perm_insertionSort _ L).pairwise_iff
      (fun h => hsymm h)).mpr hnodup
  have hsorted_rev : List.Sorted (fun a b => b.apex_score < a.apex_score ∨ a = b)
      (List.insertionSort (fun x y => x.apex_score ≤ y.apex_score) L).reverse :=
    List.pairwise_reverse.mpr ((List.Pairwise.and hasc hnd_asc).imp
      (fun h => Or.inl (lt_of_le_of_ne h.1 h.2)))
  have hsorted_desc : List.Sorted (fun a b => b.apex_score < a.apex_score ∨ a = b)
      (List.insertionSort (fun x y => y.apex_score ≤ x.apex_score) L) :=
    (List.Pairwise.and hdesc hnd_desc).imp
      (fun h => Or.inl (lt_of_le_of_ne h.1 h.2.symm))
  have hperm : List.Perm
      (List.insertionSort (fun x y => x.apex_score ≤ y.apex_score) L).reverse
      (List.insertionSort (fun x y => y.apex_score ≤ x.apex_score) L) :=
    ((List.reverse_perm _).trans (List.perm_insertionSort _ L)).trans
      (List.perm_insertionSort _ L).symm
  exact List.eq_of_perm_of_sorted hperm hsorted_rev hsorted_desc

/-- C7 (witness): on a one-entity population (trivially tie-free) the
reversed stress ranking equals the best-first ranking. -/
theorem stress_rank_reverse_eq_rank_witness :
    (get_stress_ranked_countries [tieCountryA]).reverse =
      get_ranked_countries [tieCountryA] :=
  stress_rank_reverse_eq_rank [tieCountryA] (by
    simp [calculate_all_scores])

/-- C7 (counterexample): with two entities with identical metrics (hence
tied composite scores) both stable sorts return the input order, so the
reversed stress-ranked list differs from the best-first list. -/
theorem stress_rank_reverse_counterexample :
    (get_stress_ranked_countries tieWatchlist).reverse ≠
      get_ranked_countries tieWatchlist := by
  have hAB : (calculate_apex_score [tieCountryA, tieCountryB] tieCountryA
        true none none).apex_score =
      (calculate_apex_score [tieCountryA, tieCountryB] tieCountryB
        true none none).apex_score :=
    apex_score_depends_only_on_metrics [tieCountryA, tieCountryB]
      tieCountryA tieCountryB true none none
      (by norm_num [tieCountryA, tieCountryB])
      (by norm_num [tieCountryA, tieCountryB])
      (by norm_num [tieCountryA, tieCountryB])
      (by norm_num [tieCountryA, tieCountryB])
  have hasc : get_stress_ranked_countries tieWatchlist =
      [calculate_apex_score [tieCountryA, tieCountryB] tieCountryA true none none,
       calculate_apex_score [tieCountryA, tieCountryB] tieCountryB true none none] := by
    simp only [get_stress_ranked_countries, calculate_all_scores,
      tieWatchlist, List.map_cons, List.map_nil, List.insertionSort,
      List.orderedInsert]
    rw [if_pos (le_of_eq hAB)]
  have hdesc : get_ranked_countries tieWatchlist =
      [calculate_apex_score [tieCountryA, tieCountryB] tieCountryA true none none,
       calculate_apex_score [tieCountryA, tieCountryB] tieCountryB true none none] := by
    simp only [get_ranked_countries, calculate_all_scores,
      tieWatchlist, List.map_cons, List.map_nil, List.insertionSort,
      List.orderedInsert]
    rw [if_pos (le_of_eq hAB.symm)]
  rw [hasc, hdesc]
  intro h
  simp only [List.reverse_cons, List.reverse_nil, List.nil_append,
    List.cons_append, List.cons.injEq, and_true] at h
  have hcode := congrArg APEXResult.country_code h.1
  simp only [calculate_apex_score] at hcode
  exact absurd hcode (by simp [tieCountryA, tieCountryB])

/-! ## Claim C8 -/

/-- C8 (amended): in `get_global_averages` the human-readable keys
`'Solvency'`, `'Liquidity'`, `'Stability'` and `'APEX SCORE'` duplicate the
snake_case aggregates `'solvency'`, `'liquidity'`, `'pressure'` and
`'apex_score'`; the `'Inflation'` key however is NOT a duplicate of
`'inflation'` (the mean of raw inflation rates): it is the transformed
health index `round(100 - mean_inflation / 2.5, 2)`. -/
theorem global_averages_key_duplication (watchlist : List Country) :
    (get_global_averages watchlist).Solvency =
      (get_global_averages watchlist).solvency ∧
    (get_global_averages watchlist).Liquidity =
      (get_global_averages watchlist).liquidity ∧
    (get_global_averages watchlist).Stability =
      (get_global_averages watchlist).pressure ∧
    (get_global_averages watchlist).APEX_SCORE =
      (get_global_averages watchlist).apex_score ∧
    (get_global_averages watchlist).Inflation =
      round2 (100 -
        npMean (watchlist.map (fun c => c.inflation_rate)) / 2.5) :=
  ⟨rfl, rfl, rfl, rfl, rfl⟩

/-- C8 (counterexample): on a single-entity population with inflation 0 the
`'inflation'` aggregate is 0.00 while the `'Inflation'` aggregate is
100.00: the two keys do not hold the same value. -/
theorem global_averages_Inflation_counterexample :
    (get_global_averages [zeroInflationCountry]).Inflation ≠
      (get_global_averages [zeroInflationCountry]).inflation := by
  have h1 : (get_global_averages [zeroInflationCountry]).inflation = 0 := by
    simp only [get_global_averages, zeroInflationCountry, List.map_cons,
      List.map_nil, npMean]
    norm_num [round2_zero]
  have h2 : (get_global_averages [zeroInflationCountry]).Inflation = 100 := by
    simp only [get_global_averages, zeroInflationCountry, List.map_cons,
      List.map_nil, npMean]
    norm_num [round2_hundred]
  rw [h1, h2]
  norm_num

/-! ## Claim C9: numeric groundwork -/

lemma sigmoid_le_hundred (a : ℝ) : 100 / (1 + Real.exp a) ≤ 100 := by
  rw [div_le_iff₀ (by positivity)]
  nlinarith [Real.exp_pos a]

lemma sigmoid_clip (a : ℝ) :
    npClip (100 / (1 + Real.exp a)) 0 100 = 100 / (1 + Real.exp a) := by
  unfold npClip
  rw [max_eq_left (by positivity), min_eq_left (sigmoid_le_hundred a)]

/-- Certified bounds on `exp 0.20065` from the degree-6 Taylor expansion. -/
lemma exp_20065_bounds :
    (1.222196 : ℝ) ≤ Real.exp 0.20065 ∧ Real.exp 0.20065 ≤ 1.222198 := by
  have habs : |(0.20065 : ℝ)| = 0.20065 := abs_of_nonneg (by norm_num)
  have h := Real.exp_bound (x := (0.20065 : ℝ)) (by rw [habs]; norm_num)
    (n := 6) (by norm_num)
  rw [habs, Finset.sum_range_succ, Finset.sum_range_succ,
    Finset.sum_range_succ, Finset.sum_range_succ, Finset.sum_range_succ,
    Finset.sum_range_succ, Finset.sum_range_zero] at h
  norm_num [Nat.factorial] at h
  rw [abs_le] at h
  constructor <;> linarith [h.1, h.2]

/-- Certified bounds on `exp 0.2011` from the degree-6 Taylor expansion. -/
lemma exp_2011_bounds :
    (1.222746 : ℝ) ≤ Real.exp 0.2011 ∧ Real.exp 0.2011 ≤ 1.222749 := by
  have habs : |(0.2011 : ℝ)| = 0.2011 := abs_of_nonneg (by norm_num)
  have h := Real.exp_bound (x := (0.2011 : ℝ)) (by rw [habs]; norm_num)
    (n := 6) (by norm_num)
  rw [habs, Finset.sum_range_succ, Finset.sum_range_succ,
    Finset.sum_range_succ, Finset.sum_range_succ, Finset.sum_range_succ,
    Finset.sum_range_succ, Finset.sum_range_zero] at h
  norm_num [Nat.factorial] at h
  rw [abs_le] at h
  constructor <;> linarith [h.1, h.2]

/-- The statistics of the three-entity C9 population: every mean is exact
and every raw std is below 1, so all four stds floor to 1. -/
lemma insight_stats : calculate_global_statistics insightWatchlist =
    ⟨⟨100, 1⟩, ⟨5, 1⟩, ⟨10, 1⟩, ⟨10, 1⟩⟩ := by
  unfold calculate_global_statistics
  simp only [insightWatchlist, insightTarget, insightFoil, insightMid,
    List.map_cons, List.map_nil]
  have hm1 : npMean [(100.4013 : ℝ), 99.5987, 100] = 100 := by
    norm_num [npMean]
  have hm2 : npMean [(5 : ℝ), 5, 5] = 5 := by norm_num [npMean]
  have hm3 : npMean [(10.4022 : ℝ), 10.4022, 9.1956] = 10 := by
    norm_num [npMean]
  have hm4 : npMean [(10.4022 : ℝ) + |(0 : ℝ)| / 100, 10.4022 + |(0 : ℝ)| / 100,
      9.1956 + |(0 : ℝ)| / 100] = 10 := by
    norm_num [npMean]
  have hs1 : npStd [(100.4013 : ℝ), 99.5987, 100] ≤ 1 := by
    unfold npStd
    rw [hm1]
    calc Real.sqrt (([(100.4013 : ℝ), 99.5987, 100].map
          (fun x => (x - 100) ^ 2)).sum / [(100.4013 : ℝ), 99.5987, 100].length) ≤
        Real.sqrt 1 := Real.sqrt_le_sqrt (by norm_num)
      _ = 1 := Real.sqrt_one
  have hs2 : npStd [(5 : ℝ), 5, 5] ≤ 1 := by
    unfold npStd
    rw [hm2]
    calc Real.sqrt (([(5 : ℝ), 5, 5].map (fun x => (x - 5) ^ 2)).sum /
          [(5 : ℝ), 5, 5].length) ≤ Real.sqrt 1 :=
        Real.sqrt_le_sqrt (by norm_num)
      _ = 1 := Real.sqrt_one
  have hs3 : npStd [(10.4022 : ℝ), 10.4022, 9.1956] ≤ 1 := by
    unfold npStd
    rw [hm3]
    calc Real.sqrt (([(10.4022 : ℝ), 10.4022, 9.1956].map
          (fun x => (x - 10) ^ 2)).sum /
          [(10.4022 : ℝ), 10.4022, 9.1956].length) ≤ Real.sqrt 1 :=
        Real.sqrt_le_sqrt (by norm_num)
      _ = 1 := Real.sqrt_one
  have hs4 : npStd [(10.4022 : ℝ) + |(0 : ℝ)| / 100,
      10.4022 + |(0 : ℝ)| / 100, 9.1956 + |(0 : ℝ)| / 100] ≤ 1 := by
    unfold npStd
    rw [hm4]
    calc Real.sqrt (([(10.4022 : ℝ) + |(0 : ℝ)| / 100,
            10.4022 + |(0 : ℝ)| / 100, 9.1956 + |(0 : ℝ)| / 100].map
          (fun x => (x - 10) ^ 2)).sum /
          [(10.4022 : ℝ) + |(0 : ℝ)| / 100, 10.4022 + |(0 : ℝ)| / 100,
            9.1956 + |(0 : ℝ)| / 100].length) ≤ Real.sqrt 1 :=
        Real.sqrt_le_sqrt (by norm_num)
      _ = 1 := Real.sqrt_one
  rw [hm1, hm2, hm3, hm4, max_eq_right hs1, max_eq_right hs2,
    max_eq_right hs3, max_eq_right hs4]

/-! ## Claim C9: sub-score evaluation on the concrete population -/

lemma z_norm_T_solv : z_score_normalize 100.4013 100 1 true =
    100 / (1 + Real.exp 0.20065) := by
  unfold z_score_normalize
  simp only [if_true]
  rw [show -(-(((100.4013 : ℝ) - 100) / 1)) * 0.5 = 0.20065 by norm_num]
  exact sigmoid_clip _

lemma z_norm_B_solv : z_score_normalize 99.5987 100 1 true =
    100 / (1 + Real.exp (-0.20065)) := by
  unfold z_score_normalize
  simp only [if_true]
  rw [show -(-(((99.5987 : ℝ) - 100) / 1)) * 0.5 = -0.20065 by norm_num]
  exact sigmoid_clip _

lemma z_norm_TB_press : z_score_normalize (10.4022 + |(0 : ℝ)| / 100) 10 1 true =
    100 / (1 + Real.exp 0.2011) := by
  unfold z_score_normalize
  simp only [if_true]
  rw [show -(-((((10.4022 : ℝ) + |(0 : ℝ)| / 100) - 10) / 1)) * 0.5 =
    0.2011 by norm_num]
  exact sigmoid_clip _

lemma z_norm_C_press : z_score_normalize (9.1956 + |(0 : ℝ)| / 100) 10 1 true =
    100 / (1 + Real.exp (-0.4022)) := by
  unfold z_score_normalize
  simp only [if_true]
  rw [show -(-((((9.1956 : ℝ) + |(0 : ℝ)| / 100) - 10) / 1)) * 0.5 =
    -0.4022 by norm_num]
  exact sigmoid_clip _

lemma z_norm_mid_solv : z_score_normalize 100 100 1 true = 50 := by
  unfold z_score_normalize
  simp only [if_true]
  rw [show -(-(((100 : ℝ) - 100) / 1)) * 0.5 = 0 by norm_num, sigmoid_clip]
  rw [Real.exp_zero]
  norm_num

lemma z_norm_liq : z_score_normalize 5 5 1 false = 50 := by
  unfold z_score_normalize
  simp only [Bool.false_eq_true, if_false]
  rw [show -(((5 : ℝ) - 5) / 1) * 0.5 = 0 by norm_num, sigmoid_clip]
  rw [Real.exp_zero]
  norm_num

lemma sub_T : sub_scores insightWatchlist insightTarget true none none =
    (100 / (1 + Real.exp 0.20065), 50, 100 / (1 + Real.exp 0.2011)) := by
  unfold sub_scores
  simp only [if_true, Option.getD_none, insightTarget, insight_stats]
  rw [z_norm_T_solv, z_norm_liq, z_norm_TB_press]

lemma sub_B : sub_scores insightWatchlist insightFoil true none none =
    (100 / (1 + Real.exp (-0.20065)), 50, 100 / (1 + Real.exp 0.2011)) := by
  unfold sub_scores
  simp only [if_true, Option.getD_none, insightFoil, insight_stats]
  rw [z_norm_B_solv, z_norm_liq, z_norm_TB_press]

lemma sub_C : sub_scores insightWatchlist insightMid true none none =
    (50, 50, 100 / (1 + Real.exp (-0.4022))) := by
  unfold sub_scores
  simp only [if_true, Option.getD_none, insightMid, insight_stats]
  rw [z_norm_mid_solv, z_norm_liq, z_norm_C_press]

lemma sigmoid_20065_window :
    (44.995 : ℝ) ≤ 100 / (1 + Real.exp 0.20065) ∧
      100 / (1 + Real.exp 0.20065) < 45.005 ∧
      (45 : ℝ) ≤ 100 / (1 + Real.exp 0.20065) := by
  obtain ⟨hlo, hhi⟩ := exp_20065_bounds
  refine ⟨?_, ?_, ?_⟩
  · rw [le_div_iff₀ (by positivity)]
    linarith
  · rw [div_lt_iff₀ (by positivity)]
    linarith
  · rw [le_div_iff₀ (by positivity)]
    linarith

lemma round_T_solv : round2 (100 / (1 + Real.exp 0.20065)) = 45 := by
  obtain ⟨h1, h2, _⟩ := sigmoid_20065_window
  rw [round2_eq_of_bounds (k := 4500) (by linarith) (by linarith)]
  norm_num

lemma round_B_solv : round2 (100 / (1 + Real.exp (-0.20065))) = 55 := by
  have hpos := Real.exp_pos (0.20065 : ℝ)
  have hne1 : (1 : ℝ) + Real.exp 0.20065 ≠ 0 := by positivity
  have hne2 : Real.exp (0.20065 : ℝ) ≠ 0 := by positivity
  have hrw : (100 : ℝ) / (1 + Real.exp (-0.20065)) =
      100 - 100 / (1 + Real.exp 0.20065) := by
    rw [Real.exp_neg]
    field_simp
    ring
  obtain ⟨_, h2, h3⟩ := sigmoid_20065_window
  rw [hrw, round2_eq_of_bounds (k := 5500) (by linarith) (by linarith)]
  norm_num

lemma sigmoid_2011_window :
    (44.985 : ℝ) ≤ 100 / (1 + Real.exp 0.2011) ∧
      100 / (1 + Real.exp 0.2011) < 44.995 := by
  obtain ⟨hlo, hhi⟩ := exp_2011_bounds
  constructor
  · rw [le_div_iff₀ (by positivity)]
    linarith
  · rw [div_lt_iff₀ (by positivity)]
    linarith

lemma round_TB_press : round2 (100 / (1 + Real.exp 0.2011)) = 44.99 := by
  obtain ⟨h1, h2⟩ := sigmoid_2011_window
  rw [round2_eq_of_bounds (k := 4499) (by linarith) (by linarith)]
  norm_num

lemma round_C_press : round2 (100 / (1 + Real.exp (-0.4022))) = 59.92 := by
  have hpos := Real.exp_pos (0.2011 : ℝ)
  have hne1 : (1 : ℝ) + Real.exp 0.2011 * Real.exp 0.2011 ≠ 0 := by positivity
  have hne2 : Real.exp (0.2011 : ℝ) ≠ 0 := by positivity
  have hrw : (100 : ℝ) / (1 + Real.exp (-0.4022)) =
      100 - 100 / (1 + Real.exp 0.2011 * Real.exp 0.2011) := by
    rw [show (-0.4022 : ℝ) = -(0.2011 + 0.2011) by norm_num, Real.exp_neg,
      Real.exp_add]
    field_simp
    ring
  obtain ⟨hlo, hhi⟩ := exp_2011_bounds
  have hSlo : (1.49510 : ℝ) ≤ Real.exp 0.2011 * Real.exp 0.2011 := by
    nlinarith
  have hShi : Real.exp 0.2011 * Real.exp 0.2011 ≤ (1.49512 : ℝ) := by
    nlinarith
  have hu1 : 100 / (1 + Real.exp 0.2011 * Real.exp 0.2011) ≤ 40.085 := by
    rw [div_le_iff₀ (by positivity)]
    linarith
  have hu2 : (40.075 : ℝ) < 100 / (1 + Real.exp 0.2011 * Real.exp 0.2011) := by
    rw [lt_div_iff₀ (by positivity)]
    linarith
  rw [hrw, round2_eq_of_bounds (k := 5992) (by linarith) (by linarith)]
  norm_num

lemma round_fifty : round2 (50 : ℝ) = 50 := by
  rw [round2_eq_of_bounds (k := 5000) (by norm_num) (by norm_num)]
  norm_num

lemma score_T_solv : (calculate_apex_score insightWatchlist insightTarget
    true none none).solvency_score = 45 := by
  simp only [calculate_apex_score, sub_T]
  exact round_T_solv

lemma score_T_liq : (calculate_apex_score insightWatchlist insightTarget
    true none none).liquidity_score = 50 := by
  simp only [calculate_apex_score, sub_T]
  exact round_fifty

lemma score_T_press : (calculate_apex_score insightWatchlist insightTarget
    true none none).pressure_score = 44.99 := by
  simp only [calculate_apex_score, sub_T]
  exact round_TB_press

lemma score_B_solv : (calculate_apex_score insightWatchlist insightFoil
    true none none).solvency_score = 55 := by
  simp only [calculate_apex_score, sub_B]
  exact round_B_solv

lemma score_B_liq : (calculate_apex_score insightWatchlist insightFoil
    true none none).liquidity_score = 50 := by
  simp only [calculate_apex_score, sub_B]
  exact round_fifty

lemma score_B_press : (calculate_apex_score insightWatchlist insightFoil
    true none none).pressure_score = 44.99 := by
  simp only [calculate_apex_score, sub_B]
  exact round_TB_press

lemma score_C_solv : (calculate_apex_score insightWatchlist insightMid
    true none none).solvency_score = 50 := by
  simp only [calculate_apex_score, sub_C]
  exact round_fifty

lemma score_C_liq : (calculate_apex_score insightWatchlist insightMid
    true none none).liquidity_score = 50 := by
  simp only [calculate_apex_score, sub_C]
  exact round_fifty

lemma score_C_press : (calculate_apex_score insightWatchlist insightMid
    true none none).pressure_score = 59.92 := by
  simp only [calculate_apex_score, sub_C]
  exact round_C_press

/-! ## Claim C9: averages on the concrete population -/

lemma all_scores_insight : calculate_all_scores insightWatchlist =
    [calculate_apex_score insightWatchlist insightTarget true none none,
     calculate_apex_score insightWatchlist insightFoil true none none,
     calculate_apex_score insightWatchlist insightMid true none none] := by
  unfold calculate_all_scores
  show List.map
    (fun c => calculate_apex_score insightWatchlist c true none none)
    [insightTarget, insightFoil, insightMid] = _
  simp only [List.map_cons, List.map_nil]

lemma avg_solv : (get_global_averages insightWatchlist).solvency = 50 := by
  simp only [get_global_averages, all_scores_insight, List.map_cons,
    List.map_nil, score_T_solv, score_B_solv, score_C_solv]
  rw [show npMean [(45 : ℝ), 55, 50] = 50 by norm_num [npMean]]
  exact round_fifty

lemma avg_liq : (get_global_averages insightWatchlist).liquidity = 50 := by
  simp only [get_global_averages, all_scores_insight, List.map_cons,
    List.map_nil, score_T_liq, score_B_liq, score_C_liq]
  rw [show npMean [(50 : ℝ), 50, 50] = 50 by norm_num [npMean]]
  exact round_fifty

lemma avg_press : (get_global_averages insightWatchlist).pressure = 49.97 := by
  simp only [get_global_averages, all_scores_insight, List.map_cons,
    List.map_nil, score_T_press, score_B_press, score_C_press]
  rw [show npMean [(44.99 : ℝ), 44.99, 59.92] = 1499 / 30 by
    norm_num [npMean]]
  rw [round2_eq_of_bounds (k := 4997) (by norm_num) (by norm_num)]
  norm_num

/-! ## Claim C9: the primary-risk selection loop -/

lemma pickPrimary_elt1 {n1 n2 n3 : String} {s1 a1 s2 a2 s3 a3 : ℝ}
    (h1 : 0 < a1 - s1) (h2 : a2 - s2 ≤ a1 - s1) (h3 : a3 - s3 ≤ a1 - s1) :
    pickPrimary [(n1, s1, a1), (n2, s2, a2), (n3, s3, a3)] =
      (some n1, a1 - s1) := by
  unfold pickPrimary
  simp only [List.foldl_cons, List.foldl_nil]
  rw [if_pos (show ((none : Option String), (0 : ℝ)).2 < a1 - s1 from h1)]
  rw [if_neg (show ¬((some n1, a1 - s1).2 < a2 - s2) from not_lt.mpr h2)]
  rw [if_neg (show ¬((some n1, a1 - s1).2 < a3 - s3) from not_lt.mpr h3)]

lemma pickPrimary_elt2 {n1 n2 n3 : String} {s1 a1 s2 a2 s3 a3 : ℝ}
    (h0 : 0 < a2 - s2) (h12 : a1 - s1 < a2 - s2) (h32 : a3 - s3 ≤ a2 - s2) :
    pickPrimary [(n1, s1, a1), (n2, s2, a2), (n3, s3, a3)] =
      (some n2, a2 - s2) := by
  unfold pickPrimary
  simp only [List.foldl_cons, List.foldl_nil]
  by_cases h1 : ((none : Option String), (0 : ℝ)).2 < a1 - s1
  · rw [if_pos h1]
    rw [if_pos (show (some n1, a1 - s1).2 < a2 - s2 from h12)]
    rw [if_neg (show ¬((some n2, a2 - s2).2 < a3 - s3) from not_lt.mpr h32)]
  · rw [if_neg h1]
    rw [if_pos (show ((none : Option String), (0 : ℝ)).2 < a2 - s2 from h0)]
    rw [if_neg (show ¬((some n2, a2 - s2).2 < a3 - s3) from not_lt.mpr h32)]

lemma pickPrimary_elt3 {n1 n2 n3 : String} {s1 a1 s2 a2 s3 a3 : ℝ}
    (h0 : 0 < a3 - s3) (h13 : a1 - s1 < a3 - s3) (h23 : a2 - s2 < a3 - s3) :
    pickPrimary [(n1, s1, a1), (n2, s2, a2), (n3, s3, a3)] =
      (some n3, a3 - s3) := by
  unfold pickPrimary
  simp only [List.foldl_cons, List.foldl_nil]
  by_cases h1 : ((none : Option String), (0 : ℝ)).2 < a1 - s1
  · rw [if_pos h1]
    by_cases h2 : (some n1, a1 - s1).2 < a2 - s2
    · rw [if_pos h2]
      rw [if_pos (show (some n2, a2 - s2).2 < a3 - s3 from h23)]
    · rw [if_neg h2]
      rw [if_pos (show (some n1, a1 - s1).2 < a3 - s3 from h13)]
  · rw [if_neg h1]
    by_cases h2 : ((none : Option String), (0 : ℝ)).2 < a2 - s2
    · rw [if_pos h2]
      rw [if_pos (show (some n2, a2 - s2).2 < a3 - s3 from h23)]
    · rw [if_neg h2]
      rw [if_pos (show ((none : Option String), (0 : ℝ)).2 < a3 - s3 from h0)]

lemma pickPrimary_snd_lt {n1 n2 n3 : String} {s1 a1 s2 a2 s3 a3 b : ℝ}
    (h0 : 0 < b) (h1 : a1 - s1 < b) (h2 : a2 - s2 < b) (h3 : a3 - s3 < b) :
    (pickPrimary [(n1, s1, a1), (n2, s2, a2), (n3, s3, a3)]).2 < b := by
  unfold pickPrimary
  simp only [List.foldl_cons, List.foldl_nil]
  split_ifs <;> first | exact h1 | exact h2 | exact h3 | exact h0

lemma pickWeakest_elt1 {n1 n2 n3 : String} {s1 a1 s2 a2 s3 a3 : ℝ}
    (h2 : ¬(s2 < s1)) (h3 : ¬(s3 < s1)) :
    pickWeakest [(n1, s1, a1), (n2, s2, a2), (n3, s3, a3)] = (n1, s1, a1) := by
  unfold pickWeakest
  simp only [List.foldl_cons, List.foldl_nil]
  rw [if_neg (show ¬((n2, s2, a2).2.1 < (n1, s1, a1).2.1) from h2)]
  rw [if_neg (show ¬((n3, s3, a3).2.1 < (n1, s1, a1).2.1) from h3)]

lemma pickWeakest_elt2 {n1 n2 n3 : String} {s1 a1 s2 a2 s3 a3 : ℝ}
    (h12 : s2 < s1) (h32 : ¬(s3 < s2)) :
    pickWeakest [(n1, s1, a1), (n2, s2, a2), (n3, s3, a3)] = (n2, s2, a2) := by
  unfold pickWeakest
  simp only [List.foldl_cons, List.foldl_nil]
  rw [if_pos (show (n2, s2, a2).2.1 < (n1, s1, a1).2.1 from h12)]
  rw [if_neg (show ¬((n3, s3, a3).2.1 < (n2, s2, a2).2.1) from h32)]

lemma pickWeakest_elt3 {n1 n2 n3 : String} {s1 a1 s2 a2 s3 a3 : ℝ}
    (h13 : s3 < s1) (h23 : s3 < s2) :
    pickWeakest [(n1, s1, a1), (n2, s2, a2), (n3, s3, a3)] = (n3, s3, a3) := by
  unfold pickWeakest
  simp only [List.foldl_cons, List.foldl_nil]
  by_cases h12 : (n2, s2, a2).2.1 < (n1, s1, a1).2.1
  · rw [if_pos h12]
    rw [if_pos (show (n3, s3, a3).2.1 < (n2, s2, a2).2.1 from h23)]
  · rw [if_neg h12]
    rw [if_pos (show (n3, s3, a3).2.1 < (n1, s1, a1).2.1 from h13)]

lemma pickWeakest_name_cases (n1 n2 n3 : String) (s1 a1 s2 a2 s3 a3 : ℝ) :
    (pickWeakest [(n1, s1, a1), (n2, s2, a2), (n3, s3, a3)]).1 = n1 ∨
    (pickWeakest [(n1, s1, a1), (n2, s2, a2), (n3, s3, a3)]).1 = n2 ∨
    (pickWeakest [(n1, s1, a1), (n2, s2, a2), (n3, s3, a3)]).1 = n3 := by
  unfold pickWeakest
  simp only [List.foldl_cons, List.foldl_nil]
  split_ifs <;>
    first
      | exact Or.inl rfl
      | exact Or.inr (Or.inl rfl)
      | exact Or.inr (Or.inr rfl)

lemma pickPrimary_fst_cases (n1 n2 n3 : String) (s1 a1 s2 a2 s3 a3 : ℝ) :
    (pickPrimary [(n1, s1, a1), (n2, s2, a2), (n3, s3, a3)]).1 = none ∨
    (pickPrimary [(n1, s1, a1), (n2, s2, a2), (n3, s3, a3)]).1 = some n1 ∨
    (pickPrimary [(n1, s1, a1), (n2, s2, a2), (n3, s3, a3)]).1 = some n2 ∨
    (pickPrimary [(n1, s1, a1), (n2, s2, a2), (n3, s3, a3)]).1 = some n3 := by
  unfold pickPrimary
  simp only [List.foldl_cons, List.foldl_nil]
  split_ifs <;>
    first
      | exact Or.inl rfl
      | exact Or.inr (Or.inl rfl)
      | exact Or.inr (Or.inr (Or.inl rfl))
      | exact Or.inr (Or.inr (Or.inr rfl))

/-! ## Claim C9 -/

/-- C9 (amended): `generate_insight` selects as primary risk factor the
sub-score with the largest positive deviation (average − sub-score) when
some sub-score deviates by AT LEAST 5 points (`≥ 5`, not the claim's
strict "more than 5") below average, with earlier factors (solvency,
liquidity, pressure order) winning ties; when every deviation is below 5 it
falls back to the factor with the lowest sub-score (earliest minimum); the
returned primary risk factor is always one of the three factor names. -/
theorem insight_primary_risk_selection (w : List Country) (c : Country) :
    (5 ≤ (get_global_averages w).solvency -
        (calculate_apex_score w c true none none).solvency_score →
      (get_global_averages w).liquidity -
          (calculate_apex_score w c true none none).liquidity_score ≤
        (get_global_averages w).solvency -
          (calculate_apex_score w c true none none).solvency_score →
      (get_global_averages w).pressure -
          (calculate_apex_score w c true none none).pressure_score ≤
        (get_global_averages w).solvency -
          (calculate_apex_score w c true none none).solvency_score →
      (generate_insight_core w c).primary_risk = "Solvency (Debt/GDP)") ∧
    (5 ≤ (get_global_averages w).liquidity -
        (calculate_apex_score w c true none none).liquidity_score →
      (get_global_averages w).solvency -
          (calculate_apex_score w c true none none).solvency_score <
        (get_global_averages w).liquidity -
          (calculate_apex_score w c true none none).liquidity_score →
      (get_global_averages w).pressure -
          (calculate_apex_score w c true none none).pressure_score ≤
        (get_global_averages w).liquidity -
          (calculate_apex_score w c true none none).liquidity_score →
      (generate_insight_core w c).primary_risk = "Liquidity (FX Reserves)") ∧
    (5 ≤ (get_global_averages w).pressure -
        (calculate_apex_score w c true none none).pressure_score →
      (get_global_averages w).solvency -
          (calculate_apex_score w c true none none).solvency_score <
        (get_global_averages w).pressure -
          (calculate_apex_score w c true none none).pressure_score →
      (get_global_averages w).liquidity -
          (calculate_apex_score w c true none none).liquidity_score <
        (get_global_averages w).pressure -
          (calculate_apex_score w c true none none).pressure_score →
      (generate_insight_core w c).primary_risk = "Market Pressure") ∧
    ((get_global_averages w).solvency -
        (calculate_apex_score w c true none none).solvency_score < 5 →
      (get_global_averages w).liquidity -
          (calculate_apex_score w c true none none).liquidity_score < 5 →
      (get_global_averages w).pressure -
          (calculate_apex_score w c true none none).pressure_score < 5 →
      (((calculate_apex_score w c true none none).solvency_score ≤
          (calculate_apex_score w c true none none).liquidity_score →
        (calculate_apex_score w c true none none).solvency_score ≤
          (calculate_apex_score w c true none none).pressure_score →
        (generate_insight_core w c).primary_risk = "Solvency (Debt/GDP)") ∧
       ((calculate_apex_score w c true none none).liquidity_score <
          (calculate_apex_score w c true none none).solvency_score →
        (calculate_apex_score w c true none none).liquidity_score ≤
          (calculate_apex_score w c true none none).pressure_score →
        (generate_insight_core w c).primary_risk = "Liquidity (FX Reserves)") ∧
       ((calculate_apex_score w c true none none).pressure_score <
          (calculate_apex_score w c true none none).solvency_score →
        (calculate_apex_score w c true none none).pressure_score <
          (calculate_apex_score w c true none none).liquidity_score →
        (generate_insight_core w c).primary_risk = "Market Pressure"))) ∧
    ((generate_insight_core w c).primary_risk = "Solvency (Debt/GDP)" ∨
     (generate_insight_core w c).primary_risk = "Liquidity (FX Reserves)" ∨
     (generate_insight_core w c).primary_risk = "Market Pressure") := by
  refine ⟨?_, ?_, ?_, ?_, ?_⟩
  · intro h5 hL hP
    simp only [generate_insight_core]
    rw [pickPrimary_elt1 (by linarith) hL hP]
    rw [if_neg (by
      rintro (habs | hlt)
      · exact Option.noConfusion habs
      · have hlt' : (get_global_averages w).solvency -
            (calculate_apex_score w c true none none).solvency_score < 5 :=
          hlt
        linarith)]
    rfl
  · intro h5 hS hP
    simp only [generate_insight_core]
    rw [pickPrimary_elt2 (by linarith) hS hP]
    rw [if_neg (by
      rintro (habs | hlt)
      · exact Option.noConfusion habs
      · have hlt' : (get_global_averages w).liquidity -
            (calculate_apex_score w c true none none).liquidity_score < 5 :=
          hlt
        linarith)]
    rfl
  · intro h5 hS hL
    simp only [generate_insight_core]
    rw [pickPrimary_elt3 (by linarith) hS hL]
    rw [if_neg (by
      rintro (habs | hlt)
      · exact Option.noConfusion habs
      · have hlt' : (get_global_averages w).pressure -
            (calculate_apex_score w c true none none).pressure_score < 5 :=
          hlt
        linarith)]
    rfl
  · intro hS hL hP
    refine ⟨?_, ?_, ?_⟩
    · intro hw1 hw2
      simp only [generate_insight_core]
      rw [if_pos (Or.inr (pickPrimary_snd_lt (by norm_num) hS hL hP))]
      rw [pickWeakest_elt1 (not_lt.mpr hw1) (not_lt.mpr hw2)]
    · intro hw1 hw2
      simp only [generate_insight_core]
      rw [if_pos (Or.inr (pickPrimary_snd_lt (by norm_num) hS hL hP))]
      rw [pickWeakest_elt2 hw1 (not_lt.mpr hw2)]
    · intro hw1 hw2
      simp only [generate_insight_core]
      rw [if_pos (Or.inr (pickPrimary_snd_lt (by norm_num) hS hL hP))]
      rw [pickWeakest_elt3 hw1 hw2]
  · simp only [generate_insight_core]
    split_ifs with hc
    · exact pickWeakest_name_cases _ _ _ _ _ _ _ _ _
    · rcases pickPrimary_fst_cases "Solvency (Debt/GDP)"
          "Liquidity (FX Reserves)" "Market Pressure"
          (calculate_apex_score w c true none none).solvency_score
          (get_global_averages w).solvency
          (calculate_apex_score w c true none none).liquidity_score
          (get_global_averages w).liquidity
          (calculate_apex_score w c true none none).pressure_score
          (get_global_averages w).pressure with h | h | h | h
      · exact absurd (Or.inl h) hc
      · rw [h]
        exact Or.inl rfl
      · rw [h]
        exact Or.inr (Or.inl rfl)
      · rw [h]
        exact Or.inr (Or.inr rfl)

/-- C9 (witness): on the concrete three-entity population the target's
solvency deviation is exactly 5 (≥ 5) and weakly dominates the other
deviations, so the amended rule yields primary risk factor solvency. -/
theorem insight_primary_risk_selection_witness :
    (generate_insight_core insightWatchlist insightTarget).primary_risk =
      "Solvency (Debt/GDP)" := by
  apply (insight_primary_risk_selection insightWatchlist insightTarget).1
  · rw [avg_solv, score_T_solv]
    norm_num
  · rw [avg_solv, score_T_solv, avg_liq, score_T_liq]
    norm_num
  · rw [avg_solv, score_T_solv, avg_press, score_T_press]
    norm_num

/-- C9 (counterexample): on `insightWatchlist` no sub-score of the target
deviates by more than 5 points below average (the deviations are 5.00,
0.00 and 4.98) and its lowest sub-score is pressure, so the claim as
stated mandates the fallback factor "Market Pressure"; the code instead
returns "Solvency (Debt/GDP)" (its selection threshold is `≥ 5`, not
`> 5`). -/
theorem insight_primary_risk_counterexample :
    ((get_global_averages insightWatchlist).solvency -
        (calculate_apex_score insightWatchlist insightTarget
          true none none).solvency_score ≤ 5) ∧
    ((get_global_averages insightWatchlist).liquidity -
        (calculate_apex_score insightWatchlist insightTarget
          true none none).liquidity_score ≤ 5) ∧
    ((get_global_averages insightWatchlist).pressure -
        (calculate_apex_score insightWatchlist insightTarget
          true none none).pressure_score ≤ 5) ∧
    ((calculate_apex_score insightWatchlist insightTarget
          true none none).pressure_score <
      (calculate_apex_score insightWatchlist insightTarget
          true none none).solvency_score) ∧
    ((calculate_apex_score insightWatchlist insightTarget
          true none none).pressure_score <
      (calculate_apex_score insightWatchlist insightTarget
          true none none).liquidity_score) ∧
    (generate_insight_core insightWatchlist insightTarget).primary_risk =
      "Solvency (Debt/GDP)" ∧
    "Solvency (Debt/GDP)" ≠ "Market Pressure" := by
  refine ⟨?_, ?_, ?_, ?_, ?_, ?_, ?_⟩
  · rw [avg_solv, score_T_solv]
    norm_num
  · rw [avg_liq, score_T_liq]
    norm_num
  · rw [avg_press, score_T_press]
    norm_num
  · rw [score_T_press, score_T_solv]
    norm_num
  · rw [score_T_press, score_T_liq]
    norm_num
  · simp only [generate_insight_core]
    rw [avg_solv, avg_liq, avg_press, score_T_solv, score_T_liq,
      score_T_press]
    rw [pickPrimary_elt1 (by norm_num) (by norm_num) (by norm_num)]
    rw [if_neg (by
      rintro (habs | hlt)
      · exact Option.noConfusion habs
      · norm_num at hlt)]
    rfl
  · decide

/-! ## Claim C10 -/

/-- C10: the risk tier is a coarsening of the letter grade: for every real
score, the tier equals the image of the grade under `tier_of_grade`
(AAA ↦ FORTRESS; AA, A ↦ STABLE; BBB, BB ↦ ELEVATED; B, CCC ↦ HIGH RISK;
CC, C, D ↦ CRITICAL). -/
theorem risk_tier_coarsens_letter_grade (s : ℝ) :
    get_risk_tier s = tier_of_grade (get_letter_grade s) := by
  by_cases h90 : s ≥ 90
  · rw [show get_letter_grade s = "AAA" by
      unfold get_letter_grade; rw [if_pos h90]]
    unfold get_risk_tier tier_of_grade
    rw [if_pos h90, if_pos rfl]
  by_cases h80 : s ≥ 80
  · rw [show get_letter_grade s = "AA" by
      unfold get_letter_grade; rw [if_neg h90, if_pos h80]]
    unfold get_risk_tier tier_of_grade
    rw [if_neg h90, if_pos (by linarith : s ≥ 70), if_neg (by decide),
      if_pos (Or.inl rfl)]
  by_cases h70 : s ≥ 70
  · rw [show get_letter_grade s = "A" by
      unfold get_letter_grade; rw [if_neg h90, if_neg h80, if_pos h70]]
    unfold get_risk_tier tier_of_grade
    rw [if_neg h90, if_pos h70, if_neg (by decide), if_pos (Or.inr rfl)]
  by_cases h60 : s ≥ 60
  · rw [show get_letter_grade s = "BBB" by
      unfold get_letter_grade;
        rw [if_neg h90, if_neg h80, if_neg h70, if_pos h60]]
    unfold get_risk_tier tier_of_grade
    rw [if_neg h90, if_neg h70, if_pos (by linarith : s ≥ 50),
      if_neg (by decide), if_neg (by decide), if_pos (Or.inl rfl)]
  by_cases h50 : s ≥ 50
  · rw [show get_letter_grade s = "BB" by
      unfold get_letter_grade;
        rw [if_neg h90, if_neg h80, if_neg h70, if_neg h60, if_pos h50]]
    unfold get_risk_tier tier_of_grade
    rw [if_neg h90, if_neg h70, if_pos h50, if_neg (by decide),
      if_neg (by decide), if_pos (Or.inr rfl)]
  by_cases h40 : s ≥ 40
  · rw [show get_letter_grade s = "B" by
      unfold get_letter_grade;
        rw [if_neg h90, if_neg h80, if_neg h70, if_neg h60, if_neg h50,
          if_pos h40]]
    unfold get_risk_tier tier_of_grade
    rw [if_neg h90, if_neg h70, if_neg h50, if_pos (by linarith : s ≥ 30),
      if_neg (by decide), if_neg (by decide), if_neg (by decide),
      if_pos (Or.inl rfl)]
  by_cases h30 : s ≥ 30
  · rw [show get_letter_grade s = "CCC" by
      unfold get_letter_grade;
        rw [if_neg h90, if_neg h80, if_neg h70, if_neg h60, if_neg h50,
          if_neg h40, if_pos h30]]
    unfold get_risk_tier tier_of_grade
    rw [if_neg h90, if_neg h70, if_neg h50, if_pos h30, if_neg (by decide),
      if_neg (by decide), if_neg (by decide), if_pos (Or.inr rfl)]
  by_cases h20 : s ≥ 20
  · rw [show get_letter_grade s = "CC" by
      unfold get_letter_grade;
        rw [if_neg h90, if_neg h80, if_neg h70, if_neg h60, if_neg h50,
          if_neg h40, if_neg h30, if_pos h20]]
    unfold get_risk_tier tier_of_grade
    rw [if_neg h90, if_neg h70, if_neg h50, if_neg h30, if_neg (by decide),
      if_neg (by decide), if_neg (by decide), if_neg (by decide)]
  by_cases h10 : s ≥ 10
  · rw [show get_letter_grade s = "C" by
      unfold get_letter_grade;
        rw [if_neg h90, if_neg h80, if_neg h70, if_neg h60, if_neg h50,
          if_neg h40, if_neg h30, if_neg h20, if_pos h10]]
    unfold get_risk_tier tier_of_grade
    rw [if_neg h90, if_neg h70, if_neg h50, if_neg h30, if_neg (by decide),
      if_neg (by decide), if_neg (by decide), if_neg (by decide)]
  · rw [show get_letter_grade s = "D" by
      unfold get_letter_grade;
        rw [if_neg h90, if_neg h80, if_neg h70, if_neg h60, if_neg h50,
          if_neg h40, if_neg h30, if_neg h20, if_neg h10]]
    unfold get_risk_tier tier_of_grade
    rw [if_neg h90, if_neg h70, if_neg h50, if_neg h30, if_neg (by decide),
      if_neg (by decide), if_neg (by decide), if_neg (by decide)]

end APEX

end
